import Mathlib

/-!
# Verification of `phase_diagram.py`

A shallow embedding of the core logic of the repository
`fhfraga/phase_diagram` (file `phase_diagram.py`): compound lookup,
Clausius-Clapeyron evaluators for the solid-liquid, solid-vapor and
liquid-vapor boundaries, and the Antoine liquid-vapor evaluator.

Modelling conventions:
* machine floats become real numbers (`ℝ`);
* a tabulated value that may be missing (IEEE `NaN` in the CSV column)
  becomes an `Option ℝ`, `none` standing for `NaN`;
* a pressure array whose entries would all be `NaN` (because the scalar
  constant feeding the formula is `NaN`) is modelled as `none` at the
  level of the whole array: the Python code raises no exception there,
  it silently propagates `NaN`;
* `numpy.linspace a b 100` becomes an explicit list of 100 affine
  samples;
* the `pint` unit conversions that happen implicitly in the source
  (kJ→J, kJ/cm³→Pa) appear as explicit positive factors.
-/

namespace PhaseDiagram

/-- One row of `data/data.csv`, after the unit annotations of
`PhaseDiagram.__init__`: temperatures in K, pressures in Pa, enthalpies
in kJ/mol, molar volumes in cm³/mol; Antoine coefficients raw (mmHg /
Celsius).  Columns that may hold `NaN` and are tested with `np.isnan`
by the code are `Option ℝ`. -/
structure CompoundRecord where
  Name : String
  Formula : String
  CAS_number : String
  TP_temperature : ℝ
  TP_pressure : ℝ
  CP_temperature : ℝ
  CP_pressure : ℝ
  H_melt : ℝ
  V_melt : Option ℝ
  V_melt_calc : Option ℝ
  H_vap : Option ℝ
  H_vap_boil : Option ℝ
  H_sub : ℝ
  antoine_A : ℝ
  antoine_B : ℝ
  antoine_C : ℝ
  antoine_Tmin : ℝ
  antoine_Tmax : ℝ

/-- The value of `scipy.constants.gas_constant` (J·mol⁻¹·K⁻¹). -/
noncomputable def gas_constant : ℝ := 8.31446261815324

/-! ## Compound lookup (`PhaseDiagram.__init__`)

```python
search = DF.loc[:, ['Name', 'Formula', 'CAS_number']].isin([compound])
mask = search.any()
if mask.any():
    column = mask[mask == True].index[0]
    self.idx = search[column][search[column] == True].index[0]
else:
    raise ValueError('Not a valid compound.')
```

`isin` is exact string equality.  `mask` is per-column; the first column
(in the fixed order Name, Formula, CAS_number) that contains any match
is selected, then the first matching row inside that column. -/

/-- Resolve an identifier against the dataset, mirroring the
column-major search of `__init__`.  `Except.error` models the
`ValueError('Not a valid compound.')` raise. -/
def resolve (df : List CompoundRecord) (compound : String) :
    Except String CompoundRecord :=
  if df.any (fun r => r.Name == compound) then
    match df.find? (fun r => r.Name == compound) with
    | some r => .ok r
    | none => .error "Not a valid compound."
  else if df.any (fun r => r.Formula == compound) then
    match df.find? (fun r => r.Formula == compound) with
    | some r => .ok r
    | none => .error "Not a valid compound."
  else if df.any (fun r => r.CAS_number == compound) then
    match df.find? (fun r => r.CAS_number == compound) with
    | some r => .ok r
    | none => .error "Not a valid compound."
  else
    .error "Not a valid compound."

/-- The identifier matches one of the three identification fields. -/
def MatchesId (r : CompoundRecord) (compound : String) : Prop :=
  r.Name = compound ∨ r.Formula = compound ∨ r.CAS_number = compound

instance (r : CompoundRecord) (c : String) : Decidable (MatchesId r c) := by
  unfold MatchesId; infer_instance

/-! ## `numpy.linspace` -/

/-- The `i`-th of `n` evenly spaced samples from `a` to `b`
(`numpy.linspace` with endpoint included). -/
noncomputable def linspaceF (a b : ℝ) (n : ℕ) (i : ℕ) : ℝ :=
  a + (b - a) * i / ((n : ℝ) - 1)

/-- The list produced by `numpy.linspace a b n`. -/
noncomputable def linspace (a b : ℝ) (n : ℕ) : List ℝ :=
  (List.range n).map (linspaceF a b n)

/-! ## Solid-liquid evaluator (`clapeyron_sl`)

```python
if np.isnan(self.V_melt.magnitude):
    V_melt = self.V_melt_calc
else:
    V_melt = self.V_melt
if V_melt > 0:
    temp_range = -temp_range
T_arr = np.linspace(TP, TP - temp_range, 100)
cte = self.H_melt / V_melt
P_arr = self.TP_pressure + cte * np.log(T_arr / self.TP_temperature)
```
-/

/-- The melting volume actually used: the tabulated one, falling back to
the derived one when the tabulated value is `NaN`. -/
def V_melt_eff (r : CompoundRecord) : Option ℝ :=
  match r.V_melt with
  | some v => some v
  | none => r.V_melt_calc

/-- The temperature samples of `clapeyron_sl`.  When the effective
volume is `NaN` (both columns missing) the comparison `NaN > 0` is
`False` in numpy, so `temp_range` is left unchanged. -/
noncomputable def clapeyron_sl_T (r : CompoundRecord) (temp_range : ℝ) :
    List ℝ :=
  let tr : ℝ :=
    match V_melt_eff r with
    | some v => if v > 0 then -temp_range else temp_range
    | none => temp_range
  linspace r.TP_temperature (r.TP_temperature - tr) 100

/-- Solid-liquid pressure at one temperature, for effective melting
volume `v`.  `H_melt / v` is in kJ/cm³; pint converts it to Pa with the
factor 10⁹ when it is added to `TP_pressure`. -/
noncomputable def slPressure (r : CompoundRecord) (v T : ℝ) : ℝ :=
  r.TP_pressure + (r.H_melt / v) * 1000000000 * Real.log (T / r.TP_temperature)

/-- The pressure samples of `clapeyron_sl`.  `none` models the case
where the effective melting volume is `NaN`: every entry of the numpy
array is then `NaN` (the code raises nothing). -/
noncomputable def clapeyron_sl_P (r : CompoundRecord) (temp_range : ℝ) :
    Option (List ℝ) :=
  (V_melt_eff r).map (fun v => (clapeyron_sl_T r temp_range).map (slPressure r v))

/-! ## Solid-vapor evaluator (`clapeyron_sv`)

```python
T_arr = np.linspace(TP - temp_range, TP, 100)
cte = self.H_sub / gas_constant
P_arr = self.TP_pressure * np.exp(cte * (1/TP - 1/T_arr))
```
-/

/-- The temperature samples of `clapeyron_sv`. -/
noncomputable def clapeyron_sv_T (r : CompoundRecord) (temp_range : ℝ) :
    List ℝ :=
  linspace (r.TP_temperature - temp_range) r.TP_temperature 100

/-- Solid-vapor pressure at one temperature.  `H_sub` is in kJ/mol and
`gas_constant` in J/(mol·K); pint's conversion to a dimensionless
exponent introduces the factor 1000. -/
noncomputable def svPressure (r : CompoundRecord) (T : ℝ) : ℝ :=
  r.TP_pressure *
    Real.exp (1000 * r.H_sub / gas_constant * (1 / r.TP_temperature - 1 / T))

/-- The pressure samples of `clapeyron_sv`. -/
noncomputable def clapeyron_sv_P (r : CompoundRecord) (temp_range : ℝ) :
    List ℝ :=
  (clapeyron_sv_T r temp_range).map (svPressure r)

/-! ## Liquid-vapor Clausius-Clapeyron evaluator (`clapeyron_lv`)

```python
T_arr = np.linspace(TP, CP, 100)
if np.isnan(self.H_vap_boil.magnitude):
    H_vap = self.H_vap
else:
    H_vap = self.H_vap_boil
cte = H_vap / gas_constant
P_arr = self.TP_pressure * np.exp(cte * (1/TP - 1/T_arr))
```
-/

/-- The vaporization enthalpy actually used: the boiling-point-specific
one, falling back to the standard one when it is `NaN`. -/
def H_vap_eff (r : CompoundRecord) : Option ℝ :=
  match r.H_vap_boil with
  | some h => some h
  | none => r.H_vap

/-- The temperature samples of `clapeyron_lv`. -/
noncomputable def clapeyron_lv_T (r : CompoundRecord) : List ℝ :=
  linspace r.TP_temperature r.CP_temperature 100

/-- Liquid-vapor pressure at one temperature, for vaporization enthalpy
`H` (kJ/mol; the factor 1000 is pint's conversion to J/mol). -/
noncomputable def lvPressure (r : CompoundRecord) (H T : ℝ) : ℝ :=
  r.TP_pressure *
    Real.exp (1000 * H / gas_constant * (1 / r.TP_temperature - 1 / T))

/-- The pressure samples of `clapeyron_lv`; `none` models the all-`NaN`
array produced when both enthalpy columns are `NaN` (no exception is
raised). -/
noncomputable def clapeyron_lv_P (r : CompoundRecord) : Option (List ℝ) :=
  (H_vap_eff r).map (fun H => (clapeyron_lv_T r).map (lvPressure r H))

/-! ## Antoine evaluator (`antoine_lv`)

```python
T_arr = np.linspace(TP, CP, 100)
A = self.antoine_A + np.log10(101325/760)
B = self.antoine_B
C = self.antoine_C - 273.15
Tmin = self.antoine_Tmin + 273.15
Tmax = self.antoine_Tmax + 273.15
right_side = A - (B / (C + T_arr.magnitude))
P_arr = 10**right_side
return T_arr, P_arr, A, B, C, Tmin, Tmax
```
-/

/-- The full return value of `antoine_lv`. -/
structure AntoineResult where
  T_arr : List ℝ
  P_arr : List ℝ
  A : ℝ
  B : ℝ
  C : ℝ
  Tmin : ℝ
  Tmax : ℝ

/-- The Antoine evaluator. -/
noncomputable def antoine_lv (r : CompoundRecord) : AntoineResult :=
  let T_arr := linspace r.TP_temperature r.CP_temperature 100
  let A := r.antoine_A + Real.logb 10 (101325 / 760)
  let B := r.antoine_B
  let C := r.antoine_C - 273.15
  { T_arr := T_arr
    P_arr := T_arr.map (fun T => (10 : ℝ) ^ (A - B / (C + T)))
    A := A
    B := B
    C := C
    Tmin := r.antoine_Tmin + 273.15
    Tmax := r.antoine_Tmax + 273.15 }

/-! ## Generic lemmas about `linspace` and lists -/

/-- Consecutive differences of a list are all equal (to the first one). -/
def EvenlySpaced (l : List ℝ) : Prop :=
  ∀ i : ℕ, i + 1 < l.length →
    l.getD (i + 1) 0 - l.getD i 0 = l.getD 1 0 - l.getD 0 0

lemma linspace_length (a b : ℝ) (n : ℕ) : (linspace a b n).length = n := by
  simp [linspace]

lemma linspace_getD (a b : ℝ) {n i : ℕ} (h : i < n) (d : ℝ) :
    (linspace a b n).getD i d = linspaceF a b n i := by
  rw [linspace, List.getD_eq_getElem?_getD]
  simp [List.getElem?_map, List.getElem?_range, h]

lemma linspace_get (a b : ℝ) (n : ℕ) (i : ℕ) (h : i < (linspace a b n).length) :
    (linspace a b n).get ⟨i, h⟩ = linspaceF a b n i := by
  simp [linspace]

lemma linspaceF_zero (a b : ℝ) (n : ℕ) : linspaceF a b n 0 = a := by
  simp [linspaceF]

lemma linspaceF_99 (a b : ℝ) : linspaceF a b 100 99 = b := by
  norm_num [linspaceF]

lemma linspaceF_100_eq (a b : ℝ) (i : ℕ) :
    linspaceF a b 100 i = a + (b - a) * i / 99 := by
  norm_num [linspaceF]

lemma linspaceF_100_mono (a b : ℝ) (hab : a ≤ b) {i j : ℕ} (hij : i ≤ j) :
    linspaceF a b 100 i ≤ linspaceF a b 100 j := by
  rw [linspaceF_100_eq, linspaceF_100_eq]
  have hba : (0 : ℝ) ≤ b - a := by linarith
  have hcast : (i : ℝ) ≤ (j : ℝ) := by exact_mod_cast hij
  have : (b - a) * i / 99 ≤ (b - a) * j / 99 :=
    (div_le_div_iff_of_pos_right (by norm_num)).mpr (mul_le_mul_of_nonneg_left hcast hba)
  linarith

lemma linspaceF_100_strictMono (a b : ℝ) (hab : a < b) {i j : ℕ} (hij : i < j) :
    linspaceF a b 100 i < linspaceF a b 100 j := by
  rw [linspaceF_100_eq, linspaceF_100_eq]
  have hba : (0 : ℝ) < b - a := by linarith
  have hcast : (i : ℝ) < (j : ℝ) := by exact_mod_cast hij
  have : (b - a) * i / 99 < (b - a) * j / 99 :=
    (div_lt_div_iff_of_pos_right (by norm_num)).mpr (mul_lt_mul_of_pos_left hcast hba)
  linarith

lemma linspaceF_100_lower (a b : ℝ) (hab : a ≤ b) (i : ℕ) :
    a ≤ linspaceF a b 100 i := by
  rw [linspaceF_100_eq]
  have : (0 : ℝ) ≤ (b - a) * i / 99 :=
    div_nonneg (mul_nonneg (by linarith) (Nat.cast_nonneg i)) (by norm_num)
  linarith

lemma linspace_evenlySpaced (a b : ℝ) : EvenlySpaced (linspace a b 100) := by
  intro i hi
  rw [linspace_length] at hi
  rw [linspace_getD a b (by omega) 0, linspace_getD a b (by omega) 0,
    linspace_getD a b (by norm_num) 0, linspace_getD a b (by norm_num) 0]
  rw [linspaceF_100_eq, linspaceF_100_eq, linspaceF_100_eq, linspaceF_100_eq]
  push_cast
  ring

lemma linspace_chain'_le (a b : ℝ) (hab : a ≤ b) :
    (linspace a b 100).Chain' (· ≤ ·) := by
  rw [List.chain'_iff_get]
  intro i hi
  rw [linspace_get, linspace_get]
  exact linspaceF_100_mono a b hab (Nat.le_succ i)

lemma linspaceF_100_anti (a b : ℝ) (hab : b ≤ a) {i j : ℕ} (hij : i ≤ j) :
    linspaceF a b 100 j ≤ linspaceF a b 100 i := by
  rw [linspaceF_100_eq, linspaceF_100_eq]
  have hba : b - a ≤ 0 := by linarith
  have hcast : (i : ℝ) ≤ (j : ℝ) := by exact_mod_cast hij
  have : (b - a) * j / 99 ≤ (b - a) * i / 99 :=
    (div_le_div_iff_of_pos_right (by norm_num)).mpr (mul_le_mul_of_nonpos_left hcast hba)
  linarith

lemma linspace_chain'_ge (a b : ℝ) (hab : b ≤ a) :
    (linspace a b 100).Chain' (fun x y => y ≤ x) := by
  rw [List.chain'_iff_get]
  intro i hi
  rw [linspace_get, linspace_get]
  exact linspaceF_100_anti a b hab (Nat.le_succ i)

lemma find?_eq_get_of_first {α : Type} (p : α → Bool) :
    ∀ (l : List α) (j : ℕ) (hj : j < l.length),
      p (l.get ⟨j, hj⟩) = true →
      (∀ k (hk : k < j), p (l.get ⟨k, Nat.lt_trans hk hj⟩) = false) →
      l.find? p = some (l.get ⟨j, hj⟩)
  | [], j, hj, _, _ => absurd hj (by simp)
  | x :: xs, 0, _, hpj, _ => by
      simp only [List.get] at hpj ⊢
      simp [List.find?, hpj]
  | x :: xs, j + 1, hj, hpj, hmin => by
      have hx : p x = false := hmin 0 (Nat.succ_pos j)
      simp only [List.find?, hx]
      have hj' : j < xs.length := by simpa using Nat.lt_of_succ_lt_succ hj
      have := find?_eq_get_of_first p xs j hj' hpj
        (fun k hk => hmin (k + 1) (Nat.succ_lt_succ hk))
      simpa using this

/-- Reading `getD` through `map` at an index inside the list. -/
lemma map_getD (f : ℝ → ℝ) (l : List ℝ) (i : ℕ) (h : i < l.length) (d d' : ℝ) :
    (l.map f).getD i d' = f (l.getD i d) := by
  rw [List.getD_eq_getElem?_getD, List.getD_eq_getElem?_getD,
    List.getElem?_map, List.getElem?_eq_getElem h]
  simp

/-- The temperature list of `clapeyron_sl` is a 100-point `linspace` from
`TP_temperature` to `TP_temperature - t` where `t` is `temp_range` up to
sign. -/
lemma sl_T_shape (r : CompoundRecord) (tr : ℝ) :
    ∃ t : ℝ, (t = tr ∨ t = -tr) ∧
      clapeyron_sl_T r tr =
        linspace r.TP_temperature (r.TP_temperature - t) 100 := by
  cases hV : V_melt_eff r with
  | none => exact ⟨tr, Or.inl rfl, by simp only [clapeyron_sl_T, hV]⟩
  | some v =>
    by_cases h : v > 0
    · exact ⟨-tr, Or.inr rfl, by simp only [clapeyron_sl_T, hV]; rw [if_pos h]⟩
    · exact ⟨tr, Or.inl rfl, by simp only [clapeyron_sl_T, hV]; rw [if_neg h]⟩

/-- Strict monotonicity of the Clausius-Clapeyron pressure form
`P · exp (c · (1/T' − 1/T))` in `T`, on positive temperatures, for
positive `P` and `c`. -/
lemma cc_pressure_lt (P c T' : ℝ) (hP : 0 < P) (hc : 0 < c)
    {T₁ T₂ : ℝ} (h1 : 0 < T₁) (h12 : T₁ < T₂) :
    P * Real.exp (c * (1 / T' - 1 / T₁)) <
      P * Real.exp (c * (1 / T' - 1 / T₂)) := by
  apply mul_lt_mul_of_pos_left _ hP
  apply Real.exp_lt_exp.mpr
  apply mul_lt_mul_of_pos_left _ hc
  have : 1 / T₂ < 1 / T₁ := one_div_lt_one_div_of_lt h1 h12
  linarith

/-! ## Concrete records used in witnesses and counterexamples -/

/-- A concrete water-like record (values as in `data/data.csv` for
water, numerically rounded; the exact numbers are irrelevant to the
statements, only their signs and order matter). -/
noncomputable def water : CompoundRecord :=
  { Name := "water", Formula := "H2O", CAS_number := "7732-18-5",
    TP_temperature := 273.16, TP_pressure := 611.657,
    CP_temperature := 647.1, CP_pressure := 22064000,
    H_melt := 6.01, V_melt := some (-1.634), V_melt_calc := some (-1.6),
    H_vap := some 40.66, H_vap_boil := some 40.65, H_sub := 51.06,
    antoine_A := 8.07131, antoine_B := 1730.63, antoine_C := 233.426,
    antoine_Tmin := 1, antoine_Tmax := 100 }

/-- A record with positive tabulated melting volume and a round triple
point, for the solid-liquid direction claims. -/
noncomputable def rVpos : CompoundRecord :=
  { water with TP_temperature := 300, V_melt := some 1 }

/-- A record whose two melting-volume columns are both missing. -/
noncomputable def rNoVol : CompoundRecord :=
  { water with V_melt := none, V_melt_calc := none }

/-- A record whose tabulated melting volume is missing but whose derived
one is present. -/
noncomputable def rVcalc : CompoundRecord :=
  { water with V_melt := none }

/-- A record whose two vaporization-enthalpy columns are both missing. -/
noncomputable def rNoVap : CompoundRecord :=
  { water with H_vap := none, H_vap_boil := none }

/-- A record with only the standard vaporization enthalpy present. -/
noncomputable def rVapStd : CompoundRecord :=
  { water with H_vap_boil := none }

/-- A second record whose `Formula` column collides with the `Name`
column of `waterName` below. -/
noncomputable def rFormulaX : CompoundRecord :=
  { water with Name := "salt", Formula := "X", CAS_number := "1-1-1" }

/-- A record whose `Name` is the identifier `"X"`. -/
noncomputable def rNameX : CompoundRecord :=
  { water with Name := "X", Formula := "Y", CAS_number := "2-2-2" }

/-! ## C3: exact lookup or error -/

/-- C3: an identifier that exactly matches some record's name, formula
or CAS number resolves to a record of the dataset that it matches
exactly (never a partial match — `MatchesId` is exact string equality);
an identifier matching no field of any record resolves to the
`ValueError('Not a valid compound.')` raise. -/
theorem resolve_exact_or_error (df : List CompoundRecord) (c : String) :
    ((∃ r ∈ df, MatchesId r c) →
      ∃ r, resolve df c = .ok r ∧ r ∈ df ∧ MatchesId r c) ∧
    ((∀ r ∈ df, ¬ MatchesId r c) →
      resolve df c = .error "Not a valid compound.") := by
  constructor
  · intro hex
    by_cases hN : df.any (fun r => r.Name == c) = true
    · obtain ⟨r', hfind⟩ : ∃ r', df.find? (fun r => r.Name == c) = some r' :=
        Option.isSome_iff_exists.mp (List.find?_isSome.mpr (by
          simpa [List.any_eq_true] using hN))
      refine ⟨r', by simp [resolve, hN, hfind], List.mem_of_find?_eq_some hfind,
        Or.inl (by simpa using List.find?_some hfind)⟩
    · by_cases hF : df.any (fun r => r.Formula == c) = true
      · obtain ⟨r', hfind⟩ : ∃ r', df.find? (fun r => r.Formula == c) = some r' :=
          Option.isSome_iff_exists.mp (List.find?_isSome.mpr (by
            simpa [List.any_eq_true] using hF))
        refine ⟨r', by simp [resolve, hN, hF, hfind],
          List.mem_of_find?_eq_some hfind,
          Or.inr (Or.inl (by simpa using List.find?_some hfind))⟩
      · by_cases hC : df.any (fun r => r.CAS_number == c) = true
        · obtain ⟨r', hfind⟩ :
              ∃ r', df.find? (fun r => r.CAS_number == c) = some r' :=
            Option.isSome_iff_exists.mp (List.find?_isSome.mpr (by
              simpa [List.any_eq_true] using hC))
          refine ⟨r', by simp [resolve, hN, hF, hC, hfind],
            List.mem_of_find?_eq_some hfind,
            Or.inr (Or.inr (by simpa using List.find?_some hfind))⟩
        · exfalso
          obtain ⟨r, hr, hm⟩ := hex
          rcases hm with h | h | h
          · exact hN (List.any_eq_true.mpr ⟨r, hr, by simp [h]⟩)
          · exact hF (List.any_eq_true.mpr ⟨r, hr, by simp [h]⟩)
          · exact hC (List.any_eq_true.mpr ⟨r, hr, by simp [h]⟩)
  · intro hall
    have hN : df.any (fun r => r.Name == c) = false :=
      List.any_eq_false.mpr (fun r hr => by
        simpa using fun h => hall r hr (Or.inl h))
    have hF : df.any (fun r => r.Formula == c) = false :=
      List.any_eq_false.mpr (fun r hr => by
        simpa using fun h => hall r hr (Or.inr (Or.inl h)))
    have hC : df.any (fun r => r.CAS_number == c) = false :=
      List.any_eq_false.mpr (fun r hr => by
        simpa using fun h => hall r hr (Or.inr (Or.inr h)))
    simp [resolve, hN, hF, hC]

/-- C3 witness: on the two-record dataset, `"H2O"` (a formula) resolves
to a matching record, and a garbage identifier resolves to the error. -/
theorem resolve_exact_or_error_witness :
    (∃ r, resolve [rFormulaX, water] "H2O" = .ok r ∧
      r ∈ [rFormulaX, water] ∧ MatchesId r "H2O") ∧
    resolve [rFormulaX, water] "nonsense" = .error "Not a valid compound." :=
  ⟨(resolve_exact_or_error [rFormulaX, water] "H2O").1
      ⟨water, by simp, Or.inr (Or.inl rfl)⟩,
    (resolve_exact_or_error [rFormulaX, water] "nonsense").2 (by
      intro r hr
      simp only [List.mem_cons, List.mem_singleton, List.not_mem_nil,
        or_false] at hr
      rcases hr with rfl | rfl
      · intro hm
        rcases hm with h | h | h <;> simp [rFormulaX, water] at h
      · intro hm
        rcases hm with h | h | h <;> simp [water] at h)⟩

/-- C9: the lookup is column-major: whenever row `j` is the first row
whose `Name` equals the identifier, that row is returned, even when an
earlier row `i < j` matches on `Formula`. -/
theorem resolve_column_major (df : List CompoundRecord) (c : String)
    (i j : ℕ) (hij : i < j) (hj : j < df.length)
    (hFi : (df.get ⟨i, Nat.lt_trans hij hj⟩).Formula = c)
    (hNj : (df.get ⟨j, hj⟩).Name = c)
    (hfirst : ∀ k (hk : k < j), (df.get ⟨k, Nat.lt_trans hk hj⟩).Name ≠ c) :
    resolve df c = .ok (df.get ⟨j, hj⟩) := by
  have hN : df.any (fun r => r.Name == c) = true :=
    List.any_eq_true.mpr ⟨df.get ⟨j, hj⟩, List.get_mem df j hj,
      by simpa using hNj⟩
  have hfind := find?_eq_get_of_first (fun r => r.Name == c) df j hj
    (by simpa using hNj) (fun k hk => by simpa using hfirst k hk)
  simp [resolve, hN, hfind]

/-- C9 witness: identifier `"X"` matches `rFormulaX.Formula` in row 0
and `rNameX.Name` in row 1; the lookup returns row 1 (the Name match),
not row 0. -/
theorem resolve_column_major_witness :
    resolve [rFormulaX, rNameX] "X" = .ok rNameX := by
  have h := resolve_column_major [rFormulaX, rNameX] "X" 0 1 (by norm_num)
    (by norm_num) (by simp [rFormulaX]) (by simp [rNameX])
    (fun k hk => by
      interval_cases k
      simp [rFormulaX, water])
  simpa using h

/-! ## C1: direction of the solid-liquid temperature range -/

/-- C1 counterexample: for a record with melting volume `+1` and
`T_triple = 300`, the last of the 100 sampled temperatures is
`305 = T_triple + 5`, not `T_triple − 5 = 295` as the claim states for a
positive melting volume (the code negates `temp_range` and then
subtracts it, so a positive volume samples upward). -/
theorem clapeyron_sl_direction_cex :
    (clapeyron_sl_T rVpos 5).getD 99 0 = 305 ∧ (305 : ℝ) ≠ 300 - 5 := by
  constructor
  · have hV : V_melt_eff rVpos = some 1 := rfl
    have h : clapeyron_sl_T rVpos 5 = linspace 300 (300 - -5) 100 := by
      simp only [clapeyron_sl_T, hV]
      rw [if_pos (by norm_num : (1 : ℝ) > 0)]
      norm_num [rVpos, water]
    rw [h, linspace_getD _ _ (by norm_num : (99:ℕ) < 100), linspaceF_99]
    norm_num
  · norm_num

/-- C1 (amended): the sign of the effective melting volume selects the
direction of the sampled range, but the other way around from the
claim: a positive volume samples from `T_triple` toward
`T_triple + temp_range`, a non-positive one from `T_triple` toward
`T_triple − temp_range`. -/
theorem clapeyron_sl_direction (r : CompoundRecord) (tr v : ℝ)
    (hv : V_melt_eff r = some v) :
    (0 < v →
      (clapeyron_sl_T r tr).getD 0 0 = r.TP_temperature ∧
      (clapeyron_sl_T r tr).getD 99 0 = r.TP_temperature + tr) ∧
    (v ≤ 0 →
      (clapeyron_sl_T r tr).getD 0 0 = r.TP_temperature ∧
      (clapeyron_sl_T r tr).getD 99 0 = r.TP_temperature - tr) := by
  constructor
  · intro h0
    have h : clapeyron_sl_T r tr =
        linspace r.TP_temperature (r.TP_temperature - -tr) 100 := by
      simp only [clapeyron_sl_T, hv]
      rw [if_pos h0]
    rw [h, linspace_getD _ _ (by norm_num : (0:ℕ) < 100),
      linspace_getD _ _ (by norm_num : (99:ℕ) < 100),
      linspaceF_zero, linspaceF_99]
    constructor
    · rfl
    · ring
  · intro h0
    have h : clapeyron_sl_T r tr =
        linspace r.TP_temperature (r.TP_temperature - tr) 100 := by
      simp only [clapeyron_sl_T, hv]
      rw [if_neg (not_lt.mpr h0)]
    rw [h, linspace_getD _ _ (by norm_num : (0:ℕ) < 100),
      linspace_getD _ _ (by norm_num : (99:ℕ) < 100),
      linspaceF_zero, linspaceF_99]
    exact ⟨rfl, rfl⟩

/-- C1 witness: the amended direction rule evaluated on the
positive-volume record (`V_melt = 1`, `T_triple = 300`, range 5) and the
negative-volume water record (`V_melt = −1.634`, `T_triple = 273.16`). -/
theorem clapeyron_sl_direction_witness :
    (clapeyron_sl_T rVpos 5).getD 99 0 = 300 + 5 ∧
    (clapeyron_sl_T water 5).getD 99 0 = 273.16 - 5 :=
  ⟨((clapeyron_sl_direction rVpos 5 1 rfl).1 (by norm_num)).2,
    ((clapeyron_sl_direction water 5 (-1.634) rfl).2 (by norm_num)).2⟩

/-! ## C2: missing melting volume -/

/-- C2 counterexample: with both melting-volume columns missing the
solid-liquid evaluator does not fail — it returns the `NaN`-propagated
(undefined) pressure array, the temperature array still holding 100
samples. -/
theorem clapeyron_sl_missing_cex :
    clapeyron_sl_P rNoVol 5 = none ∧ (clapeyron_sl_T rNoVol 5).length = 100 :=
  ⟨rfl, linspace_length _ _ 100⟩

/-- C2 (amended): when both the tabulated and the derived melting volume
are missing, `clapeyron_sl` silently returns the `NaN` pressure array
(no error of any kind is raised); when only the tabulated one is
missing, the derived volume is used in the pressure formula. -/
theorem clapeyron_sl_missing_data (r : CompoundRecord) (tr : ℝ) :
    (r.V_melt = none → r.V_melt_calc = none → clapeyron_sl_P r tr = none) ∧
    (r.V_melt = none → ∀ v, r.V_melt_calc = some v →
      clapeyron_sl_P r tr =
        some ((clapeyron_sl_T r tr).map (slPressure r v))) := by
  refine ⟨fun h1 h2 => ?_, fun h1 v h2 => ?_⟩
  · simp [clapeyron_sl_P, V_melt_eff, h1, h2]
  · simp [clapeyron_sl_P, V_melt_eff, h1, h2]

/-- C2 witness: the amended statement evaluated on the both-missing
record and on the record with only the derived volume present. -/
theorem clapeyron_sl_missing_data_witness :
    clapeyron_sl_P rNoVol 5 = none ∧
    clapeyron_sl_P rVcalc 5 =
      some ((clapeyron_sl_T rVcalc 5).map (slPressure rVcalc (-1.6))) :=
  ⟨(clapeyron_sl_missing_data rNoVol 5).1 rfl rfl,
    (clapeyron_sl_missing_data rVcalc 5).2 rfl (-1.6) rfl⟩

/-! ## C4: vaporization enthalpy fallback -/

/-- C4 counterexample: with both vaporization-enthalpy columns missing,
`clapeyron_lv` does not fail — it returns the `NaN`-propagated
(undefined) pressure array, the temperature array still holding 100
samples. -/
theorem clapeyron_lv_missing_cex :
    clapeyron_lv_P rNoVap = none ∧ (clapeyron_lv_T rNoVap).length = 100 :=
  ⟨rfl, linspace_length _ _ 100⟩

/-- C4 (amended): `clapeyron_lv` uses the boiling-point-specific
vaporization enthalpy when present, otherwise the standard one; when
neither is present it silently returns the `NaN` pressure array instead
of raising an error. -/
theorem clapeyron_lv_fallback (r : CompoundRecord) :
    (∀ h, r.H_vap_boil = some h →
      clapeyron_lv_P r = some ((clapeyron_lv_T r).map (lvPressure r h))) ∧
    (r.H_vap_boil = none → ∀ h, r.H_vap = some h →
      clapeyron_lv_P r = some ((clapeyron_lv_T r).map (lvPressure r h))) ∧
    (r.H_vap_boil = none → r.H_vap = none → clapeyron_lv_P r = none) := by
  refine ⟨fun h hb => ?_, fun hb h hs => ?_, fun hb hs => ?_⟩
  · simp [clapeyron_lv_P, H_vap_eff, hb]
  · simp [clapeyron_lv_P, H_vap_eff, hb, hs]
  · simp [clapeyron_lv_P, H_vap_eff, hb, hs]

/-- C4 witness: the fallback rule evaluated on water (boiling enthalpy
present), on the standard-only record, and on the both-missing record. -/
theorem clapeyron_lv_fallback_witness :
    clapeyron_lv_P water =
      some ((clapeyron_lv_T water).map (lvPressure water 40.65)) ∧
    clapeyron_lv_P rVapStd =
      some ((clapeyron_lv_T rVapStd).map (lvPressure rVapStd 40.66)) ∧
    clapeyron_lv_P rNoVap = none :=
  ⟨(clapeyron_lv_fallback water).1 40.65 rfl,
    (clapeyron_lv_fallback rVapStd).2.1 rfl 40.66 rfl,
    (clapeyron_lv_fallback rNoVap).2.2 rfl rfl⟩

/-! ## C5: Antoine coefficient normalization -/

/-- C5: the Antoine evaluator returns coefficients and range satisfying
`A' = A + log10(101325/760)`, `B' = B`, `C' = C − 273.15`,
`Tmin' = Tmin + 273.15`, `Tmax' = Tmax + 273.15` exactly. -/
theorem antoine_normalization (r : CompoundRecord) :
    (antoine_lv r).A = r.antoine_A + Real.logb 10 (101325 / 760) ∧
    (antoine_lv r).B = r.antoine_B ∧
    (antoine_lv r).C = r.antoine_C - 273.15 ∧
    (antoine_lv r).Tmin = r.antoine_Tmin + 273.15 ∧
    (antoine_lv r).Tmax = r.antoine_Tmax + 273.15 :=
  ⟨rfl, rfl, rfl, rfl, rfl⟩

/-! ## C6: 100 evenly spaced, monotonic samples -/

/-- C6: for every record and admissible (non-negative) range parameters,
the three Clausius-Clapeyron evaluators each return exactly 100 evenly
spaced temperature samples, monotonic within the sequence;
`clapeyron_sv` spans `[T_triple − temp_range, T_triple]` and
`clapeyron_lv` spans `[T_triple, T_critical]`. -/
theorem evaluator_sampling (r : CompoundRecord) (tr₁ tr₂ : ℝ)
    (h1 : 0 ≤ tr₁) (h2 : 0 ≤ tr₂)
    (hTC : r.TP_temperature ≤ r.CP_temperature) :
    ((clapeyron_sl_T r tr₁).length = 100 ∧
      EvenlySpaced (clapeyron_sl_T r tr₁) ∧
      ((clapeyron_sl_T r tr₁).Chain' (· ≤ ·) ∨
        (clapeyron_sl_T r tr₁).Chain' (fun x y => y ≤ x))) ∧
    ((clapeyron_sv_T r tr₂).length = 100 ∧
      EvenlySpaced (clapeyron_sv_T r tr₂) ∧
      (clapeyron_sv_T r tr₂).Chain' (· ≤ ·) ∧
      (clapeyron_sv_T r tr₂).getD 0 0 = r.TP_temperature - tr₂ ∧
      (clapeyron_sv_T r tr₂).getD 99 0 = r.TP_temperature) ∧
    ((clapeyron_lv_T r).length = 100 ∧
      EvenlySpaced (clapeyron_lv_T r) ∧
      (clapeyron_lv_T r).Chain' (· ≤ ·) ∧
      (clapeyron_lv_T r).getD 0 0 = r.TP_temperature ∧
      (clapeyron_lv_T r).getD 99 0 = r.CP_temperature) := by
  obtain ⟨t, ht, heq⟩ := sl_T_shape r tr₁
  refine ⟨⟨?_, ?_, ?_⟩, ⟨?_, ?_, ?_, ?_, ?_⟩, ⟨?_, ?_, ?_, ?_, ?_⟩⟩
  · rw [heq]; exact linspace_length _ _ 100
  · rw [heq]; exact linspace_evenlySpaced _ _
  · rw [heq]
    rcases ht with rfl | rfl
    · exact Or.inr (linspace_chain'_ge _ _ (by linarith))
    · exact Or.inl (linspace_chain'_le _ _ (by linarith))
  · exact linspace_length _ _ 100
  · exact linspace_evenlySpaced _ _
  · exact linspace_chain'_le _ _ (by linarith)
  · rw [clapeyron_sv_T, linspace_getD _ _ (by norm_num : (0:ℕ) < 100),
      linspaceF_zero]
  · rw [clapeyron_sv_T, linspace_getD _ _ (by norm_num : (99:ℕ) < 100),
      linspaceF_99]
  · exact linspace_length _ _ 100
  · exact linspace_evenlySpaced _ _
  · exact linspace_chain'_le _ _ hTC
  · rw [clapeyron_lv_T, linspace_getD _ _ (by norm_num : (0:ℕ) < 100),
      linspaceF_zero]
  · rw [clapeyron_lv_T, linspace_getD _ _ (by norm_num : (99:ℕ) < 100),
      linspaceF_99]

/-- C6 witness: sample counts and spans evaluated on the water record
with the default ranges 5 and 60. -/
theorem evaluator_sampling_witness :
    (clapeyron_sl_T water 5).length = 100 ∧
    (clapeyron_sv_T water 60).getD 99 0 = water.TP_temperature ∧
    (clapeyron_lv_T water).getD 99 0 = water.CP_temperature :=
  ⟨(evaluator_sampling water 5 60 (by norm_num) (by norm_num)
      (by norm_num [water])).1.1,
    (evaluator_sampling water 5 60 (by norm_num) (by norm_num)
      (by norm_num [water])).2.1.2.2.2.2,
    (evaluator_sampling water 5 60 (by norm_num) (by norm_num)
      (by norm_num [water])).2.2.2.2.2.2⟩

/-! ## C7: all three curves anchored at the triple point -/

/-- C7: at the sample whose temperature is `T_triple` (the first sample
of `clapeyron_sl` and `clapeyron_lv`, the last of `clapeyron_sv`), each
evaluator's pressure equals `P_triple` exactly in real arithmetic. -/
theorem triple_point_anchor (r : CompoundRecord) (tr₁ tr₂ v H : ℝ)
    (hv : V_melt_eff r = some v) (hH : H_vap_eff r = some H)
    (hTP : 0 < r.TP_temperature) :
    ((clapeyron_sl_T r tr₁).getD 0 0 = r.TP_temperature ∧
      ∃ l, clapeyron_sl_P r tr₁ = some l ∧ l.getD 0 0 = r.TP_pressure) ∧
    ((clapeyron_sv_T r tr₂).getD 99 0 = r.TP_temperature ∧
      (clapeyron_sv_P r tr₂).getD 99 0 = r.TP_pressure) ∧
    ((clapeyron_lv_T r).getD 0 0 = r.TP_temperature ∧
      ∃ l, clapeyron_lv_P r = some l ∧ l.getD 0 0 = r.TP_pressure) := by
  obtain ⟨t, ht, heq⟩ := sl_T_shape r tr₁
  have hslT : (clapeyron_sl_T r tr₁).getD 0 0 = r.TP_temperature := by
    rw [heq, linspace_getD _ _ (by norm_num : (0:ℕ) < 100), linspaceF_zero]
  have hsllen : (clapeyron_sl_T r tr₁).length = 100 := by
    rw [heq]; exact linspace_length _ _ 100
  refine ⟨⟨hslT, ?_⟩, ⟨?_, ?_⟩, ⟨?_, ?_⟩⟩
  · refine ⟨(clapeyron_sl_T r tr₁).map (slPressure r v), ?_, ?_⟩
    · simp [clapeyron_sl_P, hv]
    · rw [map_getD (slPressure r v) _ 0 (by rw [hsllen]; norm_num) 0 0, hslT]
      simp only [slPressure, div_self (ne_of_gt hTP), Real.log_one,
        mul_zero, add_zero]
  · rw [clapeyron_sv_T, linspace_getD _ _ (by norm_num : (99:ℕ) < 100),
      linspaceF_99]
  · rw [clapeyron_sv_P,
      map_getD (svPressure r) _ 99
        (by rw [clapeyron_sv_T]; rw [linspace_length]; norm_num) 0 0]
    rw [clapeyron_sv_T, linspace_getD _ _ (by norm_num : (99:ℕ) < 100),
      linspaceF_99]
    simp only [svPressure, sub_self, mul_zero, Real.exp_zero, mul_one]
  · rw [clapeyron_lv_T, linspace_getD _ _ (by norm_num : (0:ℕ) < 100),
      linspaceF_zero]
  · refine ⟨(clapeyron_lv_T r).map (lvPressure r H), ?_, ?_⟩
    · simp [clapeyron_lv_P, hH]
    · rw [map_getD (lvPressure r H) _ 0
        (by rw [clapeyron_lv_T]; rw [linspace_length]; norm_num) 0 0]
      rw [clapeyron_lv_T, linspace_getD _ _ (by norm_num : (0:ℕ) < 100),
        linspaceF_zero]
      simp only [lvPressure, sub_self, mul_zero, Real.exp_zero, mul_one]

/-- C7 witness: the solid-vapor curve of the water record evaluates to
`P_triple` at its last sample, whose temperature is `T_triple`. -/
theorem triple_point_anchor_witness :
    (clapeyron_sv_P water 60).getD 99 0 = water.TP_pressure :=
  (triple_point_anchor water 5 60 (-1.634) 40.65 rfl rfl
    (by norm_num [water])).2.1.2

/-! ## C8: strictly increasing pressure sequences -/

/-- Strict `Chain'` for a Clausius-Clapeyron pressure map over an
increasing positive `linspace`. -/
lemma cc_map_chain (P c a b T' : ℝ) (hP : 0 < P) (hc : 0 < c)
    (ha : 0 < a) (hab : a < b) :
    ((linspace a b 100).map
      (fun T => P * Real.exp (c * (1 / T' - 1 / T)))).Chain' (· < ·) := by
  rw [List.chain'_map, List.chain'_iff_get]
  intro i hi
  rw [linspace_get, linspace_get]
  exact cc_pressure_lt P c T' hP hc
    (lt_of_lt_of_le ha (linspaceF_100_lower a b (le_of_lt hab) i))
    (linspaceF_100_strictMono a b hab (Nat.lt_succ_self i))

/-- C8: with positive sublimation (resp. vaporization) enthalpy,
positive triple-point pressure and positive sampled temperatures, the
pressure sequences of `clapeyron_sv` and `clapeyron_lv` are strictly
increasing. -/
theorem pressure_strict_increasing (r : CompoundRecord) (tr H : ℝ)
    (hsub : 0 < r.H_sub) (hH : H_vap_eff r = some H) (hHpos : 0 < H)
    (hP : 0 < r.TP_pressure) (htr : 0 < tr)
    (hT0 : 0 < r.TP_temperature - tr)
    (hTC : r.TP_temperature < r.CP_temperature) :
    (clapeyron_sv_P r tr).Chain' (· < ·) ∧
    ∃ l, clapeyron_lv_P r = some l ∧ l.Chain' (· < ·) := by
  constructor
  · have := cc_map_chain r.TP_pressure (1000 * r.H_sub / gas_constant)
      (r.TP_temperature - tr) r.TP_temperature r.TP_temperature hP
      (div_pos (by linarith) (by norm_num [gas_constant])) hT0 (by linarith)
    exact this
  · refine ⟨(clapeyron_lv_T r).map (lvPressure r H), by simp [clapeyron_lv_P, hH], ?_⟩
    have := cc_map_chain r.TP_pressure (1000 * H / gas_constant)
      r.TP_temperature r.CP_temperature r.TP_temperature hP
      (div_pos (by linarith) (by norm_num [gas_constant])) (by linarith) hTC
    exact this

/-- C8 witness: both strictly-increasing conclusions evaluated on the
water record with range 60. -/
theorem pressure_strict_increasing_witness :
    (clapeyron_sv_P water 60).Chain' (· < ·) ∧
    ∃ l, clapeyron_lv_P water = some l ∧ l.Chain' (· < ·) :=
  pressure_strict_increasing water 60 40.65 (by norm_num [water]) rfl
    (by norm_num) (by norm_num [water]) (by norm_num)
    (by norm_num [water]) (by norm_num [water])

/-! ## C10: Antoine pressures strictly positive -/

/-- C10: every pressure returned by the Antoine evaluator is strictly
positive, being 10 raised to a real exponent — for every record and
every sample, inside or outside the correlation's validity range. -/
theorem antoine_pressure_pos (r : CompoundRecord) :
    ∀ p ∈ (antoine_lv r).P_arr, 0 < p := by
  intro p hp
  simp only [antoine_lv, List.mem_map] at hp
  obtain ⟨T, hT, rfl⟩ := hp
  exact Real.rpow_pos_of_pos (by norm_num) _

/-- C10 witness: the first Antoine pressure sample of the water record
is strictly positive. -/
theorem antoine_pressure_pos_witness :
    0 < (10 : ℝ) ^
      ((water.antoine_A + Real.logb 10 (101325 / 760)) -
        water.antoine_B /
          ((water.antoine_C - 273.15) +
            linspaceF water.TP_temperature water.CP_temperature 100 0)) := by
  apply antoine_pressure_pos water
  simp only [antoine_lv, List.mem_map]
  refine ⟨linspaceF water.TP_temperature water.CP_temperature 100 0, ?_, rfl⟩
  exact List.mem_map_of_mem _ (List.mem_range.mpr (by norm_num))

end PhaseDiagram
